import Mathlib

set_option maxHeartbeats 1000000

/- Shallow embedding of the PrivacyVotingDAOv2 Solidity contract
   (SemaphoreVerifier.sol + PrivacyVotingDAOv2.sol of the voting-dao repo).

   Machine integers are modelled as Nat; wrapping or truncation is written
   with an explicit mod 2 ^ w exactly where the source performs an unchecked
   operation or an explicit narrowing cast.  Checked Solidity 0.8 arithmetic
   that can overflow is modelled by an explicit Panic error, and - matching
   EVM revert semantics - a failing call returns the unchanged pre-state.
   Events are not stored; the winner value carried by the ProposalClosed
   event is returned by closeProposal, and the error string of each require
   is mapped to the error kind the specification names for it. -/

/-- Error kinds of the contract's require failures and arithmetic panics,
    named as in the specification. -/
inductive Err where
  | ProposalClosed
  | InvalidOption
  | NullifierAlreadyUsed
  | RootMismatch
  | SignalMismatch
  | ProofInvalid
  | AlreadyClosed
  | TooEarly
  | OutOfBounds
  | InvalidOptions
  | Unauthorized
  | Panic
deriving DecidableEq

/-- enum CountingMode { Simple, Quadratic } -/
inductive CountingMode where
  | Simple
  | Quadratic
deriving DecidableEq

namespace Pairing

/-- struct G1Point { uint256 x; uint256 y; } -/
structure G1Point where
  x : Nat
  y : Nat

/-- struct G2Point { uint256[2] x; uint256[2] y; } -/
structure G2Point where
  x : Nat × Nat
  y : Nat × Nat

/-- struct Proof { G1Point a; G2Point b; G1Point c; } -/
structure Proof where
  a : G1Point
  b : G2Point
  c : G1Point

/-- struct VerifyingKey { G1Point a; G2Point b; G2Point g; G2Point d; G1Point[] ic; } -/
structure VerifyingKey where
  a : G1Point
  b : G2Point
  g : G2Point
  d : G2Point
  ic : List G1Point

/-- Pairing.verify: the mock pairing check; the body is literally
    `return true`. -/
def verify (_proof : Proof) (_publicSignals : List Nat) (_vk : VerifyingKey) : Bool :=
  true

end Pairing

namespace SemaphoreVerifier

/-- SemaphoreVerifier.verifyProof: the mock wrapper; after a no-op touch of
    its arguments the body is literally `return true`.  The uint256[8] proof
    and uint256[4] publicSignals calldata arrays are modelled as lists. -/
def verifyProof (_proof : List Nat) (_publicSignals : List Nat) : Bool :=
  true

end SemaphoreVerifier

namespace PrivacyVotingDAOv2

/-- 2 ^ 256, the modulus of uint256 arithmetic. -/
def UINT256 : Nat := 2 ^ 256

/-- 2 ^ 64, the modulus of uint64 arithmetic. -/
def UINT64 : Nat := 2 ^ 64

/-- 2 ^ 16, the modulus of uint16 arithmetic. -/
def UINT16 : Nat := 2 ^ 16

/-- A Solidity `mapping` write: point update of a total function
    (mappings read as their type's default value on unwritten keys). -/
def mapWrite {α : Type} (f : Nat → α) (k : Nat) (v : α) : Nat → α :=
  fun x => if x = k then v else f x

/-- struct Proposal (storage layout of the contract). -/
structure Proposal where
  title : String
  description : String
  mode : CountingMode
  options : List String
  tally : Nat → Nat
  nullifiers : Nat → Bool
  closes : Nat
  closed : Bool

/-- The all-defaults Proposal a Solidity storage mapping yields for an id
    that was never written. -/
def defaultProposal : Proposal :=
  { title := ""
    description := ""
    mode := CountingMode.Simple
    options := []
    tally := fun _ => 0
    nullifiers := fun _ => false
    closes := 0
    closed := false }

/-- The contract's mutable storage: owner (from Ownable), memberMerkleRoot,
    proposalCount and the id-to-Proposal mapping. -/
structure DAOState where
  owner : Nat
  memberMerkleRoot : Nat
  proposalCount : Nat
  proposals : Nat → Proposal

/-- The immutable external collaborators fixed at deployment: the keccak256
    hash primitive (an EVM builtin, a parameter of the model), the
    govToken.getVotes oracle and the govToken address. -/
structure Config where
  keccak : String → Nat
  getVotes : Nat → Nat
  govTokenAddr : Nat

/-- The constructor: stores the member root; proposals start empty.
    (The verifier and govToken are immutables, held in Config.) -/
def initState (owner root : Nat) : DAOState :=
  { owner := owner
    memberMerkleRoot := root
    proposalCount := 0
    proposals := fun _ => defaultProposal }

/-- updateMemberRoot (onlyOwner). -/
def updateMemberRoot (sender : Nat) (s : DAOState) (newRoot : Nat) :
    DAOState × Except Err Unit :=
  if sender = s.owner then
    ({ s with memberMerkleRoot := newRoot }, Except.ok ())
  else (s, Except.error Err.Unauthorized)

/-- createProposal (onlyOwner).  `p.closes = uint64(block.timestamp) + duration`
    truncates the timestamp to 64 bits and then performs a checked uint64
    addition, which panics on overflow. -/
def createProposal (now sender : Nat) (s : DAOState) (title description : String)
    (mode : CountingMode) (options : List String) (duration : Nat) :
    DAOState × Except Err Nat :=
  if sender = s.owner then
    if 2 ≤ options.length then
      if now % UINT64 + duration < UINT64 then
        ({ s with
            proposalCount := s.proposalCount + 1
            proposals := mapWrite s.proposals (s.proposalCount + 1)
              { title := title
                description := description
                mode := mode
                options := options
                tally := fun _ => 0
                nullifiers := fun _ => false
                closes := now % UINT64 + duration
                closed := false } },
          Except.ok (s.proposalCount + 1))
      else (s, Except.error Err.Panic)
    else (s, Except.error Err.InvalidOptions)
  else (s, Except.error Err.Unauthorized)

/-- The winner scan of closeProposal:
    `for (uint8 i = 0; i < p.options.length; ++i)` with body
    `v = tally[i]; if (v > high) {high = v; winner = i;} else if (v == high) winner = 255;`.
    `r` counts the remaining iterations (the loop runs while i < length, so
    it runs length times from i = 0 unless it panics first); `i` is the uint8
    counter, and the checked `++i` panics (returns none) when i+1 reaches 256. -/
def scanAux (tally : Nat → Nat) : Nat → Nat → Nat → Nat → Option Nat
  | 0, _, winner, _ => some winner
  | r + 1, i, winner, high =>
    if high < tally i then
      if 256 ≤ i + 1 then none else scanAux tally r (i + 1) i (tally i)
    else if tally i = high then
      if 256 ≤ i + 1 then none else scanAux tally r (i + 1) 255 high
    else
      if 256 ≤ i + 1 then none else scanAux tally r (i + 1) winner high

/-- closeProposal: requires not closed and expired, sets closed, scans for
    the winner (255 = type(uint8).max is the "no winner" sentinel) and emits
    it.  If the scan's uint8 counter overflows the whole call reverts - the
    `closed := true` write is rolled back and the pre-state is returned. -/
def closeProposal (now : Nat) (s : DAOState) (id : Nat) : DAOState × Except Err Nat :=
  if (s.proposals id).closed then (s, Except.error Err.AlreadyClosed)
  else if now < (s.proposals id).closes then (s, Except.error Err.TooEarly)
  else
    match scanAux (s.proposals id).tally (s.proposals id).options.length 0 255 0 with
    | none => (s, Except.error Err.Panic)
    | some w =>
      ({ s with proposals := mapWrite s.proposals id { s.proposals id with closed := true } },
        Except.ok w)

/-- The Babylonian loop of the contract's sqrt:
    `while (z < y) { y = z; z = (x / z + z) / 2; }`.  Each body evaluates
    the checked operations of `x / z + z`: the division panics if z is zero
    and the uint256 addition panics if the sum reaches 2^256 (neither panic
    is reachable from sqrt's entry, which is proved, not assumed). -/
def sqrtGo (x y z : Nat) : Except Err Nat :=
  if z < y then
    if z = 0 then Except.error Err.Panic
    else if UINT256 ≤ x / z + z then Except.error Err.Panic
    else sqrtGo x z ((x / z + z) / 2)
  else Except.ok y
termination_by y
decreasing_by omega

/-- PrivacyVotingDAOv2.sqrt: `if (x == 0) return 0;` then
    `uint256 z = (x + 1) / 2; y = x;` and the loop.  The initialiser's
    checked uint256 addition `x + 1` overflows - and the call reverts with
    Panic(0x11) - exactly when x is the maximal uint256 value 2^256 - 1. -/
def sqrt (x : Nat) : Except Err Nat :=
  if x = 0 then Except.ok 0
  else if UINT256 ≤ x + 1 then Except.error Err.Panic
  else sqrtGo x x ((x + 1) / 2)

/-- The digit-emitting loop of _toString: repeatedly prepends the character
    `bytes1(uint8(48 + value % 10))` and divides by 10, exactly the buffer
    fill of the source (which writes the buffer back to front). -/
def toStringAux (value : Nat) (acc : List Char) : List Char :=
  if value = 0 then acc
  else toStringAux (value / 10) (Char.ofNat (48 + value % 10) :: acc)
termination_by value
decreasing_by exact Nat.div_lt_self (Nat.pos_of_ne_zero (by assumption)) (by omega)

/-- PrivacyVotingDAOv2._toString: decimal rendering of a uint256. -/
def _toString (value : Nat) : String :=
  if value = 0 then "0" else String.mk (toStringAux value [])

/-- The weight of a vote: `uint256 weight = 1;` overwritten with
    `sqrt(govToken.getVotes(msg.sender))` when the mode is Quadratic and a
    govToken is configured.  The sqrt call can revert (balance 2^256 - 1),
    so the weight is an Except.  The source computes it from the storage
    proposal after the nullifier write, whose mode equals the pre-write
    mode used here. -/
def voteWeight (cfg : Config) (sender : Nat) (p : Proposal) : Except Err Nat :=
  if p.mode = CountingMode.Quadratic ∧ cfg.govTokenAddr ≠ 0 then
    sqrt (cfg.getVotes sender)
  else Except.ok 1

/-- The storage proposal after the write steps of vote:
    `p.nullifiers[nullifierHash] = true`, then weight w added to
    `p.tally[option]` by an unchecked uint256 addition. -/
def votedProposal (p : Proposal) (opt nul w : Nat) : Proposal :=
  { p with
    nullifiers := mapWrite p.nullifiers nul true
    tally := mapWrite p.tally opt ((p.tally opt + w) % UINT256) }

/-- The contract storage after the write steps of vote on proposal id. -/
def votedState (s : DAOState) (id opt nul w : Nat) : DAOState :=
  { s with proposals := mapWrite s.proposals id (votedProposal (s.proposals id) opt nul w) }

/-- The commit of a vote with weight w: the nullifier and tally writes,
    then the auto-close branch
    `if (block.timestamp >= p.closes && !p.closed) closeProposal(id);`
    (if that nested call reverts the whole vote reverts to the pre-state). -/
def voteCommit (now : Nat) (s : DAOState) (id opt nul w : Nat) :
    DAOState × Except Err Unit :=
  if ((votedState s id opt nul w).proposals id).closes ≤ now ∧
      ((votedState s id opt nul w).proposals id).closed = false then
    match closeProposal now (votedState s id opt nul w) id with
    | (s2, Except.ok _) => (s2, Except.ok ())
    | (_, Except.error e) => (s, Except.error e)
  else (votedState s id opt nul w, Except.ok ())

/-- The write half of vote, entered after all six checks pass.  In the
    source the nullifier write precedes the weight computation; when the
    weight's sqrt reverts the whole transaction reverts, rolling that write
    back, so the model decides the weight first and on success commits both
    writes. -/
def voteApply (cfg : Config) (now sender : Nat) (s : DAOState) (id opt nul : Nat) :
    DAOState × Except Err Unit :=
  match voteWeight cfg sender (s.proposals id) with
  | Except.error e => (s, Except.error e)
  | Except.ok w => voteCommit now s id opt nul w

/-- vote: the six checks in source order, each failing with its own error
    kind, then the write path.  `opt` is the uint8 option argument, `proof`
    the uint256[8] proof words (unused by the mock verifier). -/
def vote (cfg : Config) (now sender : Nat) (s : DAOState)
    (id opt sig nul root : Nat) (proof : List Nat) : DAOState × Except Err Unit :=
  if now < (s.proposals id).closes then
    if opt < (s.proposals id).options.length then
      if (s.proposals id).nullifiers nul then (s, Except.error Err.NullifierAlreadyUsed)
      else
        if root = s.memberMerkleRoot then
          if sig = cfg.keccak ("VOTE_" ++ _toString opt) then
            if SemaphoreVerifier.verifyProof proof [root, nul, sig, id] then
              voteApply cfg now sender s id opt nul
            else (s, Except.error Err.ProofInvalid)
          else (s, Except.error Err.SignalMismatch)
        else (s, Except.error Err.RootMismatch)
    else (s, Except.error Err.InvalidOption)
  else (s, Except.error Err.ProposalClosed)

/-- The view returned by getProposal. -/
structure ProposalView where
  title : String
  mode : CountingMode
  isOpen : Bool
  closes : Nat
  options : List String
deriving DecidableEq

/-- getProposal: a pure read; `open = !p.closed && block.timestamp < p.closes`.
    The body performs no existence check and cannot fail: an unknown id
    reads the mapping's default Proposal. -/
def getProposal (now : Nat) (s : DAOState) (id : Nat) : ProposalView :=
  { title := (s.proposals id).title
    mode := (s.proposals id).mode
    isOpen := !(s.proposals id).closed && decide (now < (s.proposals id).closes)
    closes := (s.proposals id).closes
    options := (s.proposals id).options }

/-- The clamped end of a tallies read:
    `end = (n == 0 || start + n > len || start + n < start) ? len : start + n`
    with `len = uint16(p.options.length)` (a truncating cast).  Under checked
    uint16 arithmetic `start + n < start` can never hold; the overflow that
    would make it hold panics instead, which tallies tests first. -/
def talliesEnd (s : DAOState) (id start n : Nat) : Nat :=
  if n = 0 ∨ (s.proposals id).options.length % UINT16 < start + n ∨ start + n < start
  then (s.proposals id).options.length % UINT16
  else start + n

/-- tallies, continued: the require, the panic of the checked addition, and
    the slice tally[start..end) (the `start >= end` guard of the source can
    only produce the empty slice). -/
def tallies (s : DAOState) (id start n : Nat) : Except Err (List Nat) :=
  if start < (s.proposals id).options.length % UINT16 then
    if n ≠ 0 ∧ UINT16 ≤ start + n then Except.error Err.Panic
    else
      if talliesEnd s id start n ≤ start ∧ 0 < (s.proposals id).options.length % UINT16 then
        Except.ok []
      else
        Except.ok ((List.range (talliesEnd s id start n - start)).map
          fun i => (s.proposals id).tally (start + i))
  else Except.error Err.OutOfBounds

end PrivacyVotingDAOv2


/-- Decidable equality of call results, so concrete runs can be checked by
    the decide tactic. -/
instance {E A : Type} [DecidableEq E] [DecidableEq A] : DecidableEq (Except E A) := fun a b =>
  match a, b with
  | Except.ok x, Except.ok y =>
    if h : x = y then Decidable.isTrue (congrArg Except.ok h)
    else Decidable.isFalse (fun hc => h (Except.ok.inj hc))
  | Except.error x, Except.error y =>
    if h : x = y then Decidable.isTrue (congrArg Except.error h)
    else Decidable.isFalse (fun hc => h (Except.error.inj hc))
  | Except.ok _, Except.error _ => Decidable.isFalse (fun hc => Except.noConfusion hc)
  | Except.error _, Except.ok _ => Decidable.isFalse (fun hc => Except.noConfusion hc)

open PrivacyVotingDAOv2

set_option maxRecDepth 8192

/-- Concrete collaborators for witness runs: a constant hash primitive
    (every string hashes to 6), a balance oracle answering 9, and no
    govToken configured (address 0). -/
def cfg0 : Config :=
  { keccak := fun _ => 6, getVotes := fun _ => 9, govTokenAddr := 0 }

/-- Concrete collaborators with a govToken configured at address 1. -/
def cfgq : Config :=
  { keccak := fun _ => 6, getVotes := fun _ => 9, govTokenAddr := 1 }

/-- Concrete collaborators with a govToken configured whose oracle reports
    the maximal uint256 balance 2^256 - 1. -/
def cfgMax : Config :=
  { keccak := fun _ => 6, getVotes := fun _ => UINT256 - 1, govTokenAddr := 1 }

/-- A two-option Simple proposal closing at time 50, no votes yet. -/
def prop0 : Proposal :=
  { title := "T", description := "D", mode := CountingMode.Simple,
    options := ["Yes", "No"], tally := fun _ => 0, nullifiers := fun _ => false,
    closes := 50, closed := false }

/-- A one-proposal DAO: member root 7, proposal 1 is prop0. -/
def s0 : DAOState :=
  { owner := 0, memberMerkleRoot := 7, proposalCount := 1,
    proposals := fun k => if k = 1 then prop0 else defaultProposal }

/-- Like s0 but proposal 1 is Quadratic. -/
def sQuad : DAOState :=
  { s0 with proposals := fun k =>
      if k = 1 then { prop0 with mode := CountingMode.Quadratic } else defaultProposal }

/-- Like s0 but proposal 1 has tallies [0, 5]. -/
def s3 : DAOState :=
  { s0 with proposals := fun k =>
      if k = 1 then { prop0 with tally := fun j => if j = 1 then 5 else 0 }
      else defaultProposal }

/-- Like s0 but proposal 1 has 256 options. -/
def s10 : DAOState :=
  { s0 with proposals := fun k =>
      if k = 1 then { prop0 with options := List.replicate 256 "x" }
      else defaultProposal }

namespace PrivacyVotingDAOv2

/-- One Babylonian step never falls below the integer square root:
    for positive z, sqrt x is at most (x / z + z) / 2. -/
theorem sqrt_le_step (x z : Nat) (hz : 0 < z) : Nat.sqrt x ≤ (x / z + z) / 2 := by
  have hs : Nat.sqrt x * Nat.sqrt x ≤ x := Nat.sqrt_le x
  rw [Nat.le_div_iff_mul_le (by omega : 0 < 2)]
  by_cases hcase : 2 * Nat.sqrt x ≤ z
  · have h0 : Nat.sqrt x * 2 ≤ z := by omega
    exact le_trans h0 (Nat.le_add_left z (x / z))
  · have h1 : (2 * Nat.sqrt x - z) * z ≤ Nat.sqrt x * Nat.sqrt x := by
      zify [le_of_lt (Nat.lt_of_not_le hcase)]
      nlinarith [sq_nonneg ((Nat.sqrt x : Int) - z)]
    have h2 : 2 * Nat.sqrt x - z ≤ x / z := by
      rw [Nat.le_div_iff_mul_le hz]
      exact le_trans h1 hs
    omega

/-- For 1 ≤ y ≤ x the loop body's sum x / y + y stays at most x + 1, so
    the checked uint256 addition inside the loop cannot overflow when the
    initialiser's x + 1 did not. -/
theorem div_add_self_le (x y : Nat) (h1 : 1 ≤ y) (h2 : y ≤ x) : x / y + y ≤ x + 1 := by
  have hq : 1 ≤ x / y := (Nat.one_le_div_iff h1).mpr h2
  have hqy : x / y * y ≤ x := Nat.div_mul_le_self x y
  have key : x / y + y ≤ x / y * y + 1 := by
    rcases Nat.exists_eq_add_of_le hq with ⟨a, ha⟩
    rcases Nat.exists_eq_add_of_le h1 with ⟨b, hb⟩
    rw [ha, hb]
    ring_nf
    omega
  omega

/-- The Babylonian loop started above the square root and below x with the
    invariant z = (x / y + y) / 2 never divides by zero and never overflows
    its checked addition (for x + 1 < 2^256), and terminates exactly at the
    integer square root. -/
theorem sqrtGo_eq (x : Nat) (hx : 0 < x) (hb : x + 1 < UINT256) :
    ∀ y, Nat.sqrt x ≤ y → y ≤ x → ∀ z, z = (x / y + y) / 2 →
      sqrtGo x y z = Except.ok (Nat.sqrt x) := by
  intro y
  induction y using Nat.strong_induction_on with
  | _ y ih =>
    intro hy hyx z hz
    have hs1 : 1 ≤ Nat.sqrt x := Nat.sqrt_pos.mpr hx
    have hy0 : 0 < y := lt_of_lt_of_le hs1 hy
    have hzs : Nat.sqrt x ≤ z := by
      subst hz
      exact sqrt_le_step x y hy0
    have hz0 : 0 < z := lt_of_lt_of_le hs1 hzs
    unfold sqrtGo
    split
    · rename_i hlt
      have hzx : z ≤ x := by omega
      have hsum : x / z + z ≤ x + 1 := div_add_self_le x z hz0 hzx
      rw [if_neg (by omega : ¬ z = 0), if_neg (by omega : ¬ UINT256 ≤ x / z + z)]
      exact ih z hlt hzs hzx _ rfl
    · rename_i hge
      have hyz : y ≤ z := Nat.le_of_not_lt hge
      subst hz
      have h2 : y * 2 ≤ x / y + y := (Nat.le_div_iff_mul_le (by omega : 0 < 2)).mp hyz
      have h3 : y ≤ x / y := by omega
      have h4 : y * y ≤ x := (Nat.le_div_iff_mul_le hy0).mp h3
      have h5 : y ≤ Nat.sqrt x := Nat.le_sqrt.mpr h4
      have h6 : y = Nat.sqrt x := le_antisymm h5 hy
      rw [h6]

/-- The contract's sqrt returns the exact integer square root for every
    input whose checked initialiser x + 1 does not overflow. -/
theorem sqrt_ok (x : Nat) (hb : x + 1 < UINT256) :
    sqrt x = Except.ok (Nat.sqrt x) := by
  unfold sqrt
  split
  · rename_i h
    subst h
    rfl
  · rename_i h
    have hx : 0 < x := Nat.pos_of_ne_zero h
    rw [if_neg (by omega)]
    refine sqrtGo_eq x hx hb x (Nat.sqrt_le_self x) (le_refl x) _ ?_
    rw [Nat.div_self hx]
    omega

/-- At the maximal uint256 value the checked x + 1 overflows and sqrt
    reverts with the panic. -/
theorem sqrt_panic : sqrt (UINT256 - 1) = Except.error Err.Panic := by
  unfold sqrt
  rw [if_neg (by decide), if_pos (by decide)]

/-- A sqrt call that returns a value returns the integer square root. -/
theorem sqrt_ok_inv (x w : Nat) (h : sqrt x = Except.ok w) : w = Nat.sqrt x := by
  by_cases hb : x + 1 < UINT256
  · rw [sqrt_ok x hb] at h
    exact (Except.ok.inj h).symm
  · by_cases h0 : x = 0
    · subst h0
      exact absurd (by decide : 0 + 1 < UINT256) hb
    · unfold sqrt at h
      rw [if_neg h0, if_pos (by omega)] at h
      exact Except.noConfusion h

/-- sqrt can only fail with the overflow panic. -/
theorem sqrt_error_kinds (x : Nat) (e : Err) (h : sqrt x = Except.error e) :
    e = Err.Panic := by
  by_cases hb : x + 1 < UINT256
  · rw [sqrt_ok x hb] at h
    exact Except.noConfusion h
  · by_cases h0 : x = 0
    · subst h0
      exact absurd (by decide : 0 + 1 < UINT256) hb
    · unfold sqrt at h
      rw [if_neg h0, if_pos (by omega)] at h
      exact (Except.error.inj h).symm

end PrivacyVotingDAOv2

namespace PrivacyVotingDAOv2

/-- The source's digit byte 48 + d is the decimal digit character. -/
theorem digitChar_eq (d : Nat) (h : d < 10) : Nat.digitChar d = Char.ofNat (48 + d) := by
  interval_cases d <;> rfl

/-- The buffer-filling loop of _toString produces the same digit list as the
    fuelled core renderer. -/
theorem toStringAux_eq_core (fuel : Nat) :
    ∀ v acc, 0 < v → v ≤ fuel → toStringAux v acc = Nat.toDigitsCore 10 fuel v acc := by
  induction fuel with
  | zero => intro v acc hv hf; omega
  | succ fuel ih =>
    intro v acc hv hf
    unfold toStringAux
    rw [if_neg (by omega)]
    show toStringAux (v / 10) (Char.ofNat (48 + v % 10) :: acc) = _
    rw [← digitChar_eq (v % 10) (Nat.mod_lt v (by omega))]
    show _ = if v / 10 = 0 then Nat.digitChar (v % 10) :: acc
      else Nat.toDigitsCore 10 fuel (v / 10) (Nat.digitChar (v % 10) :: acc)
    by_cases h10 : v / 10 = 0
    · rw [if_pos h10, h10]
      unfold toStringAux
      rw [if_pos rfl]
    · rw [if_neg h10]
      exact ih (v / 10) _ (Nat.pos_of_ne_zero h10)
        (by have := Nat.div_lt_self hv (by omega : 1 < 10); omega)

/-- _toString is the decimal rendering of its argument. -/
theorem _toString_eq_repr (n : Nat) : _toString n = Nat.repr n := by
  unfold _toString
  by_cases h : n = 0
  · rw [if_pos h, h]
    rfl
  · rw [if_neg h]
    rw [toStringAux_eq_core (n + 1) n [] (Nat.pos_of_ne_zero h) (by omega)]
    rfl

end PrivacyVotingDAOv2

namespace PrivacyVotingDAOv2

/-- Loop invariant of the winner scan, specialised to a tally vector with a
    unique strictly-highest positive entry j: the scan ends with winner j.
    State: r iterations remain, i is the counter; either the leader is still
    ahead (i ≤ j and the running maximum is below tally j) or it has been
    recorded (winner = j, high = tally j). -/
theorem scanAux_unique_max (tally : Nat → Nat) (len j : Nat)
    (hlen : len ≤ 255) (hj : j < len)
    (hmax : ∀ k, k < len → k ≠ j → tally k < tally j) :
    ∀ r i winner high, i + r = len →
      ((i ≤ j ∧ high < tally j) ∨ (j < i ∧ winner = j ∧ high = tally j)) →
      scanAux tally r i winner high = some j := by
  intro r
  induction r with
  | zero =>
    intro i winner high hir hinv
    rcases hinv with ⟨hij, _⟩ | ⟨_, hw, _⟩
    · omega
    · simpa [scanAux] using hw
  | succ r ih =>
    intro i winner high hir hinv
    have hi : i < len := by omega
    have hi1 : ¬ 256 ≤ i + 1 := by omega
    rcases hinv with ⟨hij, hhigh⟩ | ⟨hji, hw, hh⟩
    · by_cases hcase : i = j
      · subst hcase
        rw [scanAux, if_pos hhigh, if_neg hi1]
        exact ih (i + 1) i (tally i) (by omega) (Or.inr ⟨by omega, rfl, rfl⟩)
      · have hik : tally i < tally j := hmax i hi hcase
        rw [scanAux]
        by_cases h1 : high < tally i
        · rw [if_pos h1, if_neg hi1]
          exact ih (i + 1) i (tally i) (by omega) (Or.inl ⟨by omega, hik⟩)
        · rw [if_neg h1]
          by_cases h2 : tally i = high
          · rw [if_pos h2, if_neg hi1]
            exact ih (i + 1) 255 high (by omega) (Or.inl ⟨by omega, hhigh⟩)
          · rw [if_neg h2, if_neg hi1]
            exact ih (i + 1) winner high (by omega) (Or.inl ⟨by omega, hhigh⟩)
    · have hine : i ≠ j := by omega
      have hik : tally i < tally j := hmax i hi hine
      rw [scanAux, if_neg (by omega : ¬ high < tally i), if_neg (by omega : ¬ tally i = high),
        if_neg hi1]
      exact ih (i + 1) winner high (by omega) (Or.inr ⟨by omega, hw, hh⟩)

/-- If the loop still has to execute the body at counter value 255 (that is,
    at least 256 - i more iterations remain), the checked uint8 increment
    overflows and the scan panics. -/
theorem scanAux_panic (tally : Nat → Nat) :
    ∀ r i winner high, i ≤ 255 → 256 ≤ i + r →
      scanAux tally r i winner high = none := by
  intro r
  induction r with
  | zero => intro i winner high h1 h2; omega
  | succ r ih =>
    intro i winner high h1 h2
    by_cases hi : i = 255
    · subst hi
      rw [scanAux]
      by_cases hA : high < tally 255
      · rw [if_pos hA, if_pos (by omega : 256 ≤ 255 + 1)]
      · rw [if_neg hA]
        by_cases hB : tally 255 = high
        · rw [if_pos hB, if_pos (by omega : 256 ≤ 255 + 1)]
        · rw [if_neg hB, if_pos (by omega : 256 ≤ 255 + 1)]
    · rw [scanAux]
      have hi1 : ¬ 256 ≤ i + 1 := by omega
      by_cases hA : high < tally i
      · rw [if_pos hA, if_neg hi1]
        exact ih (i + 1) i (tally i) (by omega) (by omega)
      · rw [if_neg hA]
        by_cases hB : tally i = high
        · rw [if_pos hB, if_neg hi1]
          exact ih (i + 1) 255 high (by omega) (by omega)
        · rw [if_neg hB, if_neg hi1]
          exact ih (i + 1) winner high (by omega) (by omega)

end PrivacyVotingDAOv2

namespace PrivacyVotingDAOv2


/-- While the proposal is still open the auto-close branch of the commit
    cannot fire, so voteCommit just commits the updated proposal. -/
theorem voteCommit_open (now : Nat) (s : DAOState) (id opt nul w : Nat)
    (h : now < (s.proposals id).closes) :
    voteCommit now s id opt nul w = (votedState s id opt nul w, Except.ok ()) := by
  unfold voteCommit
  rw [if_neg ?hc]
  case hc =>
    intro hc
    rcases hc with ⟨hcl, _⟩
    simp [votedState, votedProposal, mapWrite] at hcl
    omega

/-- While the proposal is still open, a voteApply whose weight computation
    succeeds commits the updated proposal. -/
theorem voteApply_open (cfg : Config) (now sender : Nat) (s : DAOState) (id opt nul w : Nat)
    (h : now < (s.proposals id).closes)
    (hw : voteWeight cfg sender (s.proposals id) = Except.ok w) :
    voteApply cfg now sender s id opt nul = (votedState s id opt nul w, Except.ok ()) := by
  unfold voteApply
  rw [hw]
  exact voteCommit_open now s id opt nul w h

/-- Any failing voteCommit returns the unchanged pre-state. -/
theorem voteCommit_error (now : Nat) (s : DAOState) (id opt nul w : Nat)
    (e : Err) (h : (voteCommit now s id opt nul w).2 = Except.error e) :
    voteCommit now s id opt nul w = (s, Except.error e) := by
  by_cases hc : ((votedState s id opt nul w).proposals id).closes ≤ now ∧
      ((votedState s id opt nul w).proposals id).closed = false
  · unfold voteCommit at h ⊢
    rw [if_pos hc] at h ⊢
    rcases hcp : closeProposal now (votedState s id opt nul w) id with ⟨s2, r⟩
    rw [hcp] at h
    cases r with
    | ok v => exact Except.noConfusion h
    | error e2 =>
      have h2 : e2 = e := Except.error.inj h
      show (s, Except.error e2) = (s, Except.error e)
      rw [h2]
  · unfold voteCommit at h ⊢
    rw [if_neg hc] at h
    simp at h

/-- Any failing voteApply returns the unchanged pre-state. -/
theorem voteApply_error (cfg : Config) (now sender : Nat) (s : DAOState) (id opt nul : Nat)
    (e : Err) (h : (voteApply cfg now sender s id opt nul).2 = Except.error e) :
    voteApply cfg now sender s id opt nul = (s, Except.error e) := by
  unfold voteApply at h ⊢
  rcases hw : voteWeight cfg sender (s.proposals id) with e2 | w
  · rw [hw] at h
    have h2 : e2 = e := Except.error.inj h
    show (s, Except.error e2) = (s, Except.error e)
    rw [h2]
  · rw [hw] at h
    exact voteCommit_error now s id opt nul w e h

/-- Any failing vote returns the unchanged pre-state together with its error. -/
theorem vote_error (cfg : Config) (now sender : Nat) (s : DAOState)
    (id opt sig nul root : Nat) (proof : List Nat) (e : Err)
    (h : (vote cfg now sender s id opt sig nul root proof).2 = Except.error e) :
    vote cfg now sender s id opt sig nul root proof = (s, Except.error e) := by
  by_cases c1 : now < (s.proposals id).closes
  · by_cases c2 : opt < (s.proposals id).options.length
    · by_cases c3 : (s.proposals id).nullifiers nul = true
      · unfold vote at h ⊢
        rw [if_pos c1, if_pos c2, if_pos c3] at h ⊢
        simp at h
        simp [h]
      · by_cases c4 : root = s.memberMerkleRoot
        · by_cases c5 : sig = cfg.keccak ("VOTE_" ++ _toString opt)
          · unfold vote at h ⊢
            rw [if_pos c1, if_pos c2, if_neg c3, if_pos c4, if_pos c5,
              if_pos (show SemaphoreVerifier.verifyProof proof [root, nul, sig, id] = true from rfl)] at h ⊢
            exact voteApply_error cfg now sender s id opt nul e h
          · unfold vote at h ⊢
            rw [if_pos c1, if_pos c2, if_neg c3, if_pos c4, if_neg c5] at h ⊢
            simp at h
            simp [h]
        · unfold vote at h ⊢
          rw [if_pos c1, if_pos c2, if_neg c3, if_neg c4] at h ⊢
          simp at h
          simp [h]
    · unfold vote at h ⊢
      rw [if_pos c1, if_neg c2] at h ⊢
      simp at h
      simp [h]
  · unfold vote at h ⊢
    rw [if_neg c1] at h ⊢
    simp at h
    simp [h]

/-- A vote that passes all six checks and whose weight computation succeeds
    commits exactly the votedState update and reports success. -/
theorem vote_ok (cfg : Config) (now sender : Nat) (s : DAOState)
    (id opt sig nul root w : Nat) (proof : List Nat)
    (h1 : now < (s.proposals id).closes)
    (h2 : opt < (s.proposals id).options.length)
    (h3 : (s.proposals id).nullifiers nul = false)
    (h4 : root = s.memberMerkleRoot)
    (h5 : sig = cfg.keccak ("VOTE_" ++ _toString opt))
    (hw : voteWeight cfg sender (s.proposals id) = Except.ok w) :
    vote cfg now sender s id opt sig nul root proof =
      (votedState s id opt nul w, Except.ok ()) := by
  unfold vote
  rw [if_pos h1, if_pos h2, if_neg (by simp [h3]), if_pos h4, if_pos h5,
    if_pos (show SemaphoreVerifier.verifyProof proof [root, nul, sig, id] = true from rfl)]
  exact voteApply_open cfg now sender s id opt nul w h1 hw

end PrivacyVotingDAOv2

namespace PrivacyVotingDAOv2

/-- closeProposal can only fail with AlreadyClosed, TooEarly or Panic. -/
theorem closeProposal_error_kinds (now : Nat) (s : DAOState) (id : Nat) (e : Err)
    (h : (closeProposal now s id).2 = Except.error e) :
    e = Err.AlreadyClosed ∨ e = Err.TooEarly ∨ e = Err.Panic := by
  unfold closeProposal at h
  by_cases c1 : (s.proposals id).closed = true
  · rw [if_pos c1] at h
    simp at h
    exact Or.inl h.symm
  · rw [if_neg c1] at h
    by_cases c2 : now < (s.proposals id).closes
    · rw [if_pos c2] at h
      simp at h
      exact Or.inr (Or.inl h.symm)
    · rw [if_neg c2] at h
      rcases hm : scanAux (s.proposals id).tally (s.proposals id).options.length 0 255 0 with
        _ | w
      · rw [hm] at h
        simp at h
        exact Or.inr (Or.inr h.symm)
      · rw [hm] at h
        simp at h

/-- voteWeight can only fail with the sqrt overflow panic. -/
theorem voteWeight_error_kinds (cfg : Config) (sender : Nat) (p : Proposal) (e : Err)
    (h : voteWeight cfg sender p = Except.error e) : e = Err.Panic := by
  unfold voteWeight at h
  split at h
  · exact sqrt_error_kinds (cfg.getVotes sender) e h
  · exact Except.noConfusion h

/-- voteCommit can only fail with an error kind of the nested closeProposal. -/
theorem voteCommit_error_kinds (now : Nat) (s : DAOState) (id opt nul w : Nat) (e : Err)
    (h : (voteCommit now s id opt nul w).2 = Except.error e) :
    e = Err.AlreadyClosed ∨ e = Err.TooEarly ∨ e = Err.Panic := by
  unfold voteCommit at h
  by_cases hc : ((votedState s id opt nul w).proposals id).closes ≤ now ∧
      ((votedState s id opt nul w).proposals id).closed = false
  · rw [if_pos hc] at h
    rcases hcp : closeProposal now (votedState s id opt nul w) id with ⟨s2, r⟩
    rw [hcp] at h
    cases r with
    | ok v => exact Except.noConfusion h
    | error e2 =>
      have h2 : e2 = e := Except.error.inj h
      subst h2
      exact closeProposal_error_kinds now (votedState s id opt nul w) id e2
        (by rw [hcp])
  · rw [if_neg hc] at h
    exact Except.noConfusion h

/-- voteApply can only fail with the weight panic or an error kind of the
    nested closeProposal. -/
theorem voteApply_error_kinds (cfg : Config) (now sender : Nat) (s : DAOState)
    (id opt nul : Nat) (e : Err)
    (h : (voteApply cfg now sender s id opt nul).2 = Except.error e) :
    e = Err.AlreadyClosed ∨ e = Err.TooEarly ∨ e = Err.Panic := by
  unfold voteApply at h
  rcases hw : voteWeight cfg sender (s.proposals id) with e2 | w
  · rw [hw] at h
    have h2 : e2 = e := Except.error.inj h
    subst h2
    exact Or.inr (Or.inr (voteWeight_error_kinds cfg sender (s.proposals id) e2 hw))
  · rw [hw] at h
    exact voteCommit_error_kinds now s id opt nul w e h

/-- An accepted vote is exactly a vote that passed the five state checks
    with a successful weight computation, and it commits exactly the
    votedState update with that weight. -/
theorem vote_accepted (cfg : Config) (now sender : Nat) (s : DAOState)
    (id opt sig nul root : Nat) (proof : List Nat)
    (h : (vote cfg now sender s id opt sig nul root proof).2 = Except.ok ()) :
    (∃ w, voteWeight cfg sender (s.proposals id) = Except.ok w ∧
      vote cfg now sender s id opt sig nul root proof =
        (votedState s id opt nul w, Except.ok ())) ∧
    now < (s.proposals id).closes ∧
    opt < (s.proposals id).options.length ∧
    (s.proposals id).nullifiers nul = false ∧
    root = s.memberMerkleRoot ∧
    sig = cfg.keccak ("VOTE_" ++ _toString opt) := by
  by_cases c1 : now < (s.proposals id).closes
  · by_cases c2 : opt < (s.proposals id).options.length
    · by_cases c3 : (s.proposals id).nullifiers nul = true
      · unfold vote at h
        rw [if_pos c1, if_pos c2, if_pos c3] at h
        exact Except.noConfusion h
      · by_cases c4 : root = s.memberMerkleRoot
        · by_cases c5 : sig = cfg.keccak ("VOTE_" ++ _toString opt)
          · rcases hw : voteWeight cfg sender (s.proposals id) with e2 | w
            · unfold vote at h
              rw [if_pos c1, if_pos c2, if_neg c3, if_pos c4, if_pos c5,
                if_pos (show SemaphoreVerifier.verifyProof proof [root, nul, sig, id] = true
                  from rfl)] at h
              unfold voteApply at h
              rw [hw] at h
              exact Except.noConfusion h
            · refine ⟨⟨w, rfl, ?_⟩, c1, c2, by simpa using c3, c4, c5⟩
              exact vote_ok cfg now sender s id opt sig nul root w proof c1 c2
                (by simpa using c3) c4 c5 hw
          · unfold vote at h
            rw [if_pos c1, if_pos c2, if_neg c3, if_pos c4, if_neg c5] at h
            exact Except.noConfusion h
        · unfold vote at h
          rw [if_pos c1, if_pos c2, if_neg c3, if_neg c4] at h
          exact Except.noConfusion h
    · unfold vote at h
      rw [if_pos c1, if_neg c2] at h
      exact Except.noConfusion h
  · unfold vote at h
    rw [if_neg c1] at h
    exact Except.noConfusion h

/-- vote never fails with ProofInvalid (nor with an error kind reserved for
    the other entry points). -/
theorem vote_error_kinds (cfg : Config) (now sender : Nat) (s : DAOState)
    (id opt sig nul root : Nat) (proof : List Nat) (e : Err)
    (h : (vote cfg now sender s id opt sig nul root proof).2 = Except.error e) :
    e = Err.ProposalClosed ∨ e = Err.InvalidOption ∨ e = Err.NullifierAlreadyUsed ∨
    e = Err.RootMismatch ∨ e = Err.SignalMismatch ∨
    e = Err.AlreadyClosed ∨ e = Err.TooEarly ∨ e = Err.Panic := by
  by_cases c1 : now < (s.proposals id).closes
  · by_cases c2 : opt < (s.proposals id).options.length
    · by_cases c3 : (s.proposals id).nullifiers nul = true
      · unfold vote at h
        rw [if_pos c1, if_pos c2, if_pos c3] at h
        simp at h
        tauto
      · by_cases c4 : root = s.memberMerkleRoot
        · by_cases c5 : sig = cfg.keccak ("VOTE_" ++ _toString opt)
          · unfold vote at h
            rw [if_pos c1, if_pos c2, if_neg c3, if_pos c4, if_pos c5,
              if_pos (show SemaphoreVerifier.verifyProof proof [root, nul, sig, id] = true
                from rfl)] at h
            have := voteApply_error_kinds cfg now sender s id opt nul e h
            tauto
          · unfold vote at h
            rw [if_pos c1, if_pos c2, if_neg c3, if_pos c4, if_neg c5] at h
            simp at h
            tauto
        · unfold vote at h
          rw [if_pos c1, if_pos c2, if_neg c3, if_neg c4] at h
          simp at h
          tauto
    · unfold vote at h
      rw [if_pos c1, if_neg c2] at h
      simp at h
      tauto
  · unfold vote at h
    rw [if_neg c1] at h
    simp at h
    tauto

end PrivacyVotingDAOv2

/-- C1 (amended): an accepted vote records its nullifier for the proposal,
    and while a nullifier is recorded every vote on the proposal carrying it
    that passes the preceding proposal-open and option-range checks is
    rejected with NullifierAlreadyUsed and leaves the whole state - tally
    and nullifier set included - unchanged.  (A later vote carrying the used
    nullifier that fails an earlier check is rejected with that check's
    error instead.) -/
theorem C1_nullifier_single_use (cfg : Config) (now sender : Nat) (s : DAOState)
    (id opt sig nul root : Nat) (proof : List Nat) :
    ((vote cfg now sender s id opt sig nul root proof).2 = Except.ok () →
      (((vote cfg now sender s id opt sig nul root proof).1).proposals id).nullifiers nul = true) ∧
    ((s.proposals id).nullifiers nul = true →
      now < (s.proposals id).closes →
      opt < (s.proposals id).options.length →
      vote cfg now sender s id opt sig nul root proof = (s, Except.error Err.NullifierAlreadyUsed)) := by
  constructor
  · intro hacc
    obtain ⟨⟨w, hw, heq⟩, -, -, -, -, -⟩ :=
      vote_accepted cfg now sender s id opt sig nul root proof hacc
    rw [heq]
    simp [votedState, votedProposal, mapWrite]
  · intro hnul h1 h2
    unfold vote
    rw [if_pos h1, if_pos h2, if_pos hnul]

/-- C1 counterexample: on the concrete one-proposal DAO s0, the vote
    (proposal 1, option 0, nullifier 42) is accepted, and a later vote on
    proposal 1 carrying the same nullifier 42 but the out-of-range option 5
    is rejected with InvalidOption, not with NullifierAlreadyUsed. -/
theorem C1_counterexample :
    (vote cfg0 10 0 s0 1 0 6 42 7 []).2 = Except.ok () ∧
    (vote cfg0 10 0 (vote cfg0 10 0 s0 1 0 6 42 7 []).1 1 5 6 42 7 []).2 =
      Except.error Err.InvalidOption ∧
    Err.InvalidOption ≠ Err.NullifierAlreadyUsed := by
  refine ⟨by decide, by decide, by decide⟩

/-- C1 witness: instantiating C1_nullifier_single_use on s0: the accepted
    vote marks nullifier 42 used, and on the post-state a vote carrying 42
    with the valid option 1 is rejected with NullifierAlreadyUsed leaving
    the state unchanged. -/
theorem C1_witness :
    (((vote cfg0 10 0 s0 1 0 6 42 7 []).1).proposals 1).nullifiers 42 = true ∧
    vote cfg0 10 0 (vote cfg0 10 0 s0 1 0 6 42 7 []).1 1 1 6 42 7 [] =
      ((vote cfg0 10 0 s0 1 0 6 42 7 []).1, Except.error Err.NullifierAlreadyUsed) := by
  refine ⟨(C1_nullifier_single_use cfg0 10 0 s0 1 0 6 42 7 []).1 (by decide), ?_⟩
  exact (C1_nullifier_single_use cfg0 10 0 (vote cfg0 10 0 s0 1 0 6 42 7 []).1 1 1 6 42 7 []).2
    (by decide) (by decide) (by decide)

/-- C2 (amended): the wired-in verifier returns true on every input, so
    vote's ProofInvalid branch is unreachable and vote's outcome does not
    depend on the proof words at all; a submission that passes the
    proposal-open, option-range, nullifier, root and signal checks is
    accepted whenever its weight computation succeeds (always, in Simple
    mode or with no govToken configured) - but not unconditionally: a
    Quadratic vote whose oracle balance is 2^256 - 1 passes all five checks
    and still reverts in the weight's sqrt. -/
theorem C2_verifier_always_true (cfg : Config) (now sender : Nat) (s : DAOState)
    (id opt sig nul root : Nat) (proof alt signals : List Nat) :
    SemaphoreVerifier.verifyProof proof signals = true ∧
    (vote cfg now sender s id opt sig nul root proof).2 ≠ Except.error Err.ProofInvalid ∧
    vote cfg now sender s id opt sig nul root proof =
      vote cfg now sender s id opt sig nul root alt ∧
    (now < (s.proposals id).closes →
      opt < (s.proposals id).options.length →
      (s.proposals id).nullifiers nul = false →
      root = s.memberMerkleRoot →
      sig = cfg.keccak ("VOTE_" ++ _toString opt) →
      ∀ w, voteWeight cfg sender (s.proposals id) = Except.ok w →
      (vote cfg now sender s id opt sig nul root proof).2 = Except.ok ()) := by
  refine ⟨rfl, ?_, rfl, ?_⟩
  · intro h
    rcases vote_error_kinds cfg now sender s id opt sig nul root proof Err.ProofInvalid h with
      h | h | h | h | h | h | h | h <;> exact Err.noConfusion h
  · intro h1 h2 h3 h4 h5 w hw
    rw [vote_ok cfg now sender s id opt sig nul root w proof h1 h2 h3 h4 h5 hw]

/-- C2 counterexample: under cfgMax (govToken configured, oracle balance
    2^256 - 1) a vote on the open Quadratic proposal of sQuad passes the
    proposal-open, option-range, nullifier, root and signal checks - yet it
    is not accepted: the weight computation's sqrt trips its checked x + 1
    and vote reverts with the arithmetic panic, state unchanged. -/
theorem C2_counterexample :
    10 < (sQuad.proposals 1).closes ∧
    0 < (sQuad.proposals 1).options.length ∧
    (sQuad.proposals 1).nullifiers 42 = false ∧
    7 = sQuad.memberMerkleRoot ∧
    6 = cfgMax.keccak ("VOTE_" ++ _toString 0) ∧
    vote cfgMax 10 0 sQuad 1 0 6 42 7 [] = (sQuad, Except.error Err.Panic) ∧
    (Except.error Err.Panic : Except Err Unit) ≠ Except.ok () := by
  refine ⟨by decide, by decide, by decide, by decide, by decide, by rfl, by decide⟩

/-- C2 witness: on s0 a vote with arbitrary proof words [1,2,3] passing the
    five checks (weight 1, no oracle) is accepted, and swapping the proof
    words for [] changes nothing. -/
theorem C2_witness :
    (vote cfg0 10 0 s0 1 0 6 42 7 [1, 2, 3]).2 = Except.ok () ∧
    vote cfg0 10 0 s0 1 0 6 42 7 [1, 2, 3] = vote cfg0 10 0 s0 1 0 6 42 7 [] := by
  refine ⟨(C2_verifier_always_true cfg0 10 0 s0 1 0 6 42 7 [1, 2, 3] [] []).2.2.2
    (by decide) (by decide) (by decide) (by decide) (by decide) 1 (by decide), ?_⟩
  exact (C2_verifier_always_true cfg0 10 0 s0 1 0 6 42 7 [1, 2, 3] [] []).2.2.1

/-- C4 (amended): whenever vote returns any failure no state is mutated -
    the returned state is exactly the pre-state, so the tallies and
    nullifier sets of every proposal, the membership root and the proposal
    count are unchanged; and a vote on an open proposal with
    optionIndex >= options.length is rejected with InvalidOption.  (A vote
    whose proposal is closed or expired is rejected with ProposalClosed
    before the option index is examined.) -/
theorem C4_no_mutation_on_failure (cfg : Config) (now sender : Nat) (s : DAOState)
    (id opt sig nul root : Nat) (proof : List Nat) :
    (∀ e, (vote cfg now sender s id opt sig nul root proof).2 = Except.error e →
      (vote cfg now sender s id opt sig nul root proof).1 = s) ∧
    (now < (s.proposals id).closes →
      (s.proposals id).options.length ≤ opt →
      vote cfg now sender s id opt sig nul root proof = (s, Except.error Err.InvalidOption)) := by
  constructor
  · intro e h
    rw [vote_error cfg now sender s id opt sig nul root proof e h]
  · intro h1 h2
    unfold vote
    rw [if_pos h1, if_neg (by omega)]

/-- C4 counterexample: on s0 at time 50 (the close timestamp) a vote with
    the out-of-range option 5 is rejected with ProposalClosed, not with
    InvalidOption, because the proposal-open check runs first. -/
theorem C4_counterexample :
    (vote cfg0 50 0 s0 1 5 6 42 7 []).2 = Except.error Err.ProposalClosed ∧
    Err.ProposalClosed ≠ Err.InvalidOption := by
  refine ⟨by decide, by decide⟩

/-- C4 witness: instantiating C4_no_mutation_on_failure on s0: the vote with
    out-of-range option 5 on the open proposal 1 fails with InvalidOption
    and returns the pre-state s0 itself. -/
theorem C4_witness :
    (vote cfg0 10 0 s0 1 5 6 42 7 []).1 = s0 ∧
    vote cfg0 10 0 s0 1 5 6 42 7 [] = (s0, Except.error Err.InvalidOption) := by
  refine ⟨(C4_no_mutation_on_failure cfg0 10 0 s0 1 5 6 42 7 []).1 Err.InvalidOption (by decide), ?_⟩
  exact (C4_no_mutation_on_failure cfg0 10 0 s0 1 5 6 42 7 []).2 (by decide) (by decide)

/-- C5: on an open proposal with a valid option index, fresh nullifier and
    matching root, a vote whose signalHash differs from the hash of
    "VOTE_" ++ the decimal rendering of optionIndex is rejected with
    SignalMismatch (whatever the proof words); and a vote whose signalHash
    equals that hash passes the signal check: it is never rejected with
    SignalMismatch, and it is accepted whenever the subsequent weight
    computation succeeds. -/
theorem C5_signal_binding (cfg : Config) (now sender : Nat) (s : DAOState)
    (id opt sig nul root : Nat) (proof : List Nat)
    (h1 : now < (s.proposals id).closes)
    (h2 : opt < (s.proposals id).options.length)
    (h3 : (s.proposals id).nullifiers nul = false)
    (h4 : root = s.memberMerkleRoot) :
    (sig ≠ cfg.keccak ("VOTE_" ++ Nat.repr opt) →
      vote cfg now sender s id opt sig nul root proof = (s, Except.error Err.SignalMismatch)) ∧
    (sig = cfg.keccak ("VOTE_" ++ Nat.repr opt) →
      (vote cfg now sender s id opt sig nul root proof).2 ≠ Except.error Err.SignalMismatch ∧
      (∀ w, voteWeight cfg sender (s.proposals id) = Except.ok w →
        (vote cfg now sender s id opt sig nul root proof).2 = Except.ok ())) := by
  have hrep : ("VOTE_" ++ _toString opt) = ("VOTE_" ++ Nat.repr opt) := by
    rw [_toString_eq_repr]
  constructor
  · intro hne
    unfold vote
    rw [if_pos h1, if_pos h2, if_neg (by simp [h3]), if_pos h4,
      if_neg (by rw [hrep]; exact hne)]
  · intro heq
    have h5 : sig = cfg.keccak ("VOTE_" ++ _toString opt) := by rw [hrep]; exact heq
    have hveq : vote cfg now sender s id opt sig nul root proof =
        voteApply cfg now sender s id opt nul := by
      unfold vote
      rw [if_pos h1, if_pos h2, if_neg (by simp [h3]), if_pos h4, if_pos h5,
        if_pos (show SemaphoreVerifier.verifyProof proof [root, nul, sig, id] = true from rfl)]
    constructor
    · intro hcontra
      rw [hveq] at hcontra
      rcases voteApply_error_kinds cfg now sender s id opt nul Err.SignalMismatch hcontra with
        h | h | h <;> exact Err.noConfusion h
    · intro w hw
      rw [vote_ok cfg now sender s id opt sig nul root w proof h1 h2 h3 h4 h5 hw]

/-- C5 witness: instantiating C5_signal_binding on s0 (every string hashes
    to 6 under cfg0): signalHash 999 is rejected with SignalMismatch with
    the state unchanged; signalHash 6 passes the signal check and, the
    weight computation returning 1, the vote is accepted. -/
theorem C5_witness :
    vote cfg0 10 0 s0 1 0 999 43 7 [] = (s0, Except.error Err.SignalMismatch) ∧
    (vote cfg0 10 0 s0 1 0 6 43 7 []).2 = Except.ok () := by
  refine ⟨(C5_signal_binding cfg0 10 0 s0 1 0 999 43 7 []
    (by decide) (by decide) (by decide) (by decide)).1 (by decide), ?_⟩
  exact ((C5_signal_binding cfg0 10 0 s0 1 0 6 43 7 []
    (by decide) (by decide) (by decide) (by decide)).2 (by decide)).2 1 (by decide)

/-- C6 (amended): no vote is ever accepted at or after closesAt - the vote
    path's first check rejects every submission with now >= closesAt with
    ProposalClosed and leaves the state unchanged, so the auto-close branch
    inside vote never runs and closure always requires an explicit
    closeProposal call. -/
theorem C6_no_vote_at_or_after_close (cfg : Config) (now sender : Nat) (s : DAOState)
    (id opt sig nul root : Nat) (proof : List Nat)
    (h : (s.proposals id).closes ≤ now) :
    vote cfg now sender s id opt sig nul root proof = (s, Except.error Err.ProposalClosed) := by
  unfold vote
  rw [if_neg (by omega)]

/-- C6 counterexample: on s0 at time 50 = closesAt, a vote that is valid in
    every other respect (option 0, fresh nullifier 42, matching root 7,
    matching signal 6) is rejected with ProposalClosed - it is not accepted
    and no closure is triggered - while the identical submission at time 10
    is accepted. -/
theorem C6_counterexample :
    (vote cfg0 50 0 s0 1 0 6 42 7 []).2 = Except.error Err.ProposalClosed ∧
    ((vote cfg0 50 0 s0 1 0 6 42 7 []).1.proposals 1).closed = false ∧
    (vote cfg0 10 0 s0 1 0 6 42 7 []).2 = Except.ok () := by
  refine ⟨by decide, by decide, by decide⟩

/-- C6 witness: instantiating C6_no_vote_at_or_after_close on s0 at time 50
    (the close timestamp of proposal 1). -/
theorem C6_witness :
    (s0.proposals 1).closes ≤ 50 ∧
    vote cfg0 50 0 s0 1 0 6 42 7 [] = (s0, Except.error Err.ProposalClosed) := by
  refine ⟨by decide, C6_no_vote_at_or_after_close cfg0 50 0 s0 1 0 6 42 7 [] (by decide)⟩

/-- C7 (amended): for every accepted vote the weight added to
    tally[optionIndex] is 1 when the proposal's mode is Simple or no weight
    oracle (govToken) is configured, and the exact integer square root
    floor(sqrt(balance)) of the voter's external balance when the mode is
    Quadratic and an oracle is configured; the internal sqrt routine returns
    floor(sqrt(x)) for every input x with x + 1 < 2^256, but at the maximal
    uint256 input 2^256 - 1 its checked initialiser x + 1 overflows and the
    call reverts with an arithmetic panic instead of returning a value. -/
theorem C7_vote_weight (cfg : Config) (now sender : Nat) (s : DAOState)
    (id opt sig nul root : Nat) (proof : List Nat)
    (hacc : (vote cfg now sender s id opt sig nul root proof).2 = Except.ok ()) :
    ((vote cfg now sender s id opt sig nul root proof).1.proposals id).tally opt =
      ((s.proposals id).tally opt +
        (if (s.proposals id).mode = CountingMode.Quadratic ∧ cfg.govTokenAddr ≠ 0
         then Nat.sqrt (cfg.getVotes sender) else 1)) % UINT256 ∧
    (∀ x : Nat, x + 1 < UINT256 → sqrt x = Except.ok (Nat.sqrt x)) ∧
    sqrt (UINT256 - 1) = Except.error Err.Panic := by
  refine ⟨?_, sqrt_ok, sqrt_panic⟩
  obtain ⟨⟨w, hw, heq⟩, -, -, -, -, -⟩ :=
    vote_accepted cfg now sender s id opt sig nul root proof hacc
  have hwval : w = if (s.proposals id).mode = CountingMode.Quadratic ∧ cfg.govTokenAddr ≠ 0
      then Nat.sqrt (cfg.getVotes sender) else 1 := by
    unfold voteWeight at hw
    split at hw
    · rename_i hcond
      rw [if_pos hcond]
      exact sqrt_ok_inv (cfg.getVotes sender) w hw
    · rename_i hcond
      rw [if_neg hcond]
      exact (Except.ok.inj hw).symm
  rw [heq]
  simp [votedState, votedProposal, mapWrite, hwval]

/-- C7 counterexample: at the maximal uint256 input 2^256 - 1 the
    contract's sqrt does not return the integer square root 2^128 - 1 that
    the claim promises for every input: its checked initialiser x + 1
    overflows and the call reverts with the arithmetic panic. -/
theorem C7_counterexample :
    sqrt (UINT256 - 1) = Except.error Err.Panic ∧
    Nat.sqrt (UINT256 - 1) = 2 ^ 128 - 1 ∧
    (Except.error Err.Panic : Except Err Nat) ≠ Except.ok (2 ^ 128 - 1) := by
  refine ⟨?_, ?_, by decide⟩
  · unfold sqrt
    rw [if_neg (by decide), if_pos (by decide)]
  · have h1 : (2 ^ 128 - 1) * (2 ^ 128 - 1) ≤ UINT256 - 1 := by decide
    have h2 : UINT256 - 1 < (2 ^ 128 - 1 + 1) * (2 ^ 128 - 1 + 1) := by decide
    exact (Nat.eq_sqrt.mpr ⟨h1, h2⟩).symm

/-- C7 witness: instantiating C7_vote_weight on two concrete accepted
    votes: under cfgq (oracle at address 1, balance 9) the Quadratic
    proposal's tally gains floor(sqrt 9), and under cfg0 (no oracle) the
    Simple proposal's tally gains 1. -/
theorem C7_witness :
    ((vote cfgq 10 0 sQuad 1 0 6 42 7 []).1.proposals 1).tally 0 =
      (((sQuad.proposals 1).tally 0) +
        (if (sQuad.proposals 1).mode = CountingMode.Quadratic ∧ cfgq.govTokenAddr ≠ 0
         then Nat.sqrt (cfgq.getVotes 0) else 1)) % UINT256 ∧
    ((vote cfg0 10 0 s0 1 0 6 42 7 []).1.proposals 1).tally 0 =
      (((s0.proposals 1).tally 0) +
        (if (s0.proposals 1).mode = CountingMode.Quadratic ∧ cfg0.govTokenAddr ≠ 0
         then Nat.sqrt (cfg0.getVotes 0) else 1)) % UINT256 := by
  have h9 : Nat.sqrt 9 = 3 := (Nat.eq_sqrt.mpr (by decide)).symm
  have hw : voteWeight cfgq 0 (sQuad.proposals 1) = Except.ok 3 := by
    unfold voteWeight
    rw [if_pos (by decide)]
    show sqrt 9 = Except.ok 3
    rw [sqrt_ok 9 (by decide), h9]
  have hacc : (vote cfgq 10 0 sQuad 1 0 6 42 7 []).2 = Except.ok () := by
    rw [vote_ok cfgq 10 0 sQuad 1 0 6 42 7 3 []
      (by decide) (by decide) (by decide) (by decide) (by decide) hw]
  refine ⟨(C7_vote_weight cfgq 10 0 sQuad 1 0 6 42 7 [] hacc).1,
    (C7_vote_weight cfg0 10 0 s0 1 0 6 42 7 [] (by decide)).1⟩

/-- C3 (amended): a zero tally triggers the tie-reset branch only while the
    running maximum is still zero, when the winner is still the sentinel, so
    it never erases a leader: whenever some option's tally is strictly
    higher than every other option's and positive (and the scan completes,
    i.e. at most 255 options), closeProposal reports that option as winner -
    in particular for tallies [0, 5] it reports option 1, not "no winner". -/
theorem C3_unique_leader_wins (now : Nat) (s : DAOState) (id j : Nat)
    (hlen : (s.proposals id).options.length ≤ 255)
    (hopen : (s.proposals id).closed = false)
    (hexp : (s.proposals id).closes ≤ now)
    (hj : j < (s.proposals id).options.length)
    (hpos : 0 < (s.proposals id).tally j)
    (hmax : ∀ k, k < (s.proposals id).options.length → k ≠ j →
      (s.proposals id).tally k < (s.proposals id).tally j) :
    (closeProposal now s id).2 = Except.ok j ∧
    ((closeProposal now s id).1.proposals id).closed = true := by
  have hscan := scanAux_unique_max (s.proposals id).tally (s.proposals id).options.length j
    hlen hj hmax (s.proposals id).options.length 0 255 0 (by omega)
    (Or.inl ⟨Nat.zero_le j, hpos⟩)
  unfold closeProposal
  rw [if_neg (by simp [hopen]), if_neg (by omega), hscan]
  exact ⟨rfl, by simp [mapWrite]⟩

/-- C3 counterexample: on the concrete proposal with tallies [0, 5] (option
    0 has zero votes, option 1 five votes), closeProposal reports winner 1 -
    the single leader - and not the "no winner" sentinel 255 that the claim
    predicts. -/
theorem C3_counterexample :
    (closeProposal 100 s3 1).2 = Except.ok 1 ∧ (1 : Nat) ≠ 255 := by
  refine ⟨by decide, by decide⟩

/-- C3 witness: instantiating C3_unique_leader_wins on the [0, 5] tally
    vector: option 1 wins and the proposal is closed. -/
theorem C3_witness :
    (closeProposal 100 s3 1).2 = Except.ok 1 ∧
    ((closeProposal 100 s3 1).1.proposals 1).closed = true := by
  refine C3_unique_leader_wins 100 s3 1 1 (by decide) (by decide) (by decide) (by decide)
    (by decide) ?_
  intro k hk hne
  match k with
  | 0 => decide
  | 1 => exact absurd rfl hne
  | m + 2 => simp [s3, prop0] at hk

/-- C10: createProposal places no upper bound on the number of options
    (anything with at least 2 options is accepted), yet for a proposal with
    256 or more options the winner scan's checked uint8 loop counter
    overflows before the scan can finish, so closeProposal always reverts
    with an arithmetic panic and such a proposal can never transition to
    closed, even after its close timestamp has passed. -/
theorem C10_oversized_proposal_never_closes (now sender : Nat) (s : DAOState) (id : Nat)
    (title description : String) (mode : CountingMode) (options : List String)
    (duration : Nat) (h256 : 256 ≤ (s.proposals id).options.length) :
    ((s.proposals id).closed = false → (closeProposal now s id).1 = s) ∧
    ((s.proposals id).closed = false → (s.proposals id).closes ≤ now →
      closeProposal now s id = (s, Except.error Err.Panic)) ∧
    (sender = s.owner → 2 ≤ options.length → now % UINT64 + duration < UINT64 →
      (createProposal now sender s title description mode options duration).2 =
        Except.ok (s.proposalCount + 1)) := by
  have hpanic : scanAux (s.proposals id).tally (s.proposals id).options.length 0 255 0 = none :=
    scanAux_panic (s.proposals id).tally (s.proposals id).options.length 0 255 0
      (by omega) (by omega)
  refine ⟨?_, ?_, ?_⟩
  · intro hcl
    unfold closeProposal
    rw [if_neg (by simp [hcl])]
    by_cases hc2 : now < (s.proposals id).closes
    · rw [if_pos hc2]
    · rw [if_neg hc2, hpanic]
  · intro hcl hexp
    unfold closeProposal
    rw [if_neg (by simp [hcl]), if_neg (by omega), hpanic]
  · intro hown hopts hdur
    unfold createProposal
    rw [if_pos hown, if_pos hopts, if_pos hdur]

/-- C10 witness: instantiating C10_oversized_proposal_never_closes on the
    concrete DAO s10 whose proposal 1 has 256 options: createProposal
    accepted those 256 options, and closeProposal on the expired, not yet
    closed proposal reverts with the panic, leaving the state unchanged. -/
theorem C10_witness :
    (closeProposal 100 s10 1).1 = s10 ∧
    closeProposal 100 s10 1 = (s10, Except.error Err.Panic) ∧
    (createProposal 0 0 s10 "T" "D" CountingMode.Simple (List.replicate 256 "x") 50).2 =
      Except.ok (s10.proposalCount + 1) := by
  have h256 : 256 ≤ ((s10.proposals 1).options.length) := by
    simp [s10, prop0]
  refine ⟨(C10_oversized_proposal_never_closes 100 0 s10 1 "T" "D" CountingMode.Simple
      (List.replicate 256 "x") 50 h256).1 (by decide),
    (C10_oversized_proposal_never_closes 100 0 s10 1 "T" "D" CountingMode.Simple
      (List.replicate 256 "x") 50 h256).2.1 (by decide) (by decide),
    (C10_oversized_proposal_never_closes 0 0 s10 1 "T" "D" CountingMode.Simple
      (List.replicate 256 "x") 50 h256).2.2 (by decide) (by simp) (by decide)⟩

/-- C8 (amended): tallies fails with OutOfBounds exactly when
    start >= options.length (for proposals whose option count fits uint16,
    as the start argument itself does); when count is zero the effective end
    is clamped to options.length, so tallies(id, start, 0) returns the
    weights of all options from start to the end; when count is nonzero and
    start+count exceeds options.length but still fits uint16 the end is
    likewise clamped; but when start+count would wrap around the 16-bit
    range the checked uint16 addition reverts with an arithmetic panic
    instead of clamping. -/
theorem C8_tallies_bounds (s : DAOState) (id start n : Nat)
    (hlen : (s.proposals id).options.length < UINT16) :
    (tallies s id start n = Except.error Err.OutOfBounds ↔
      (s.proposals id).options.length ≤ start) ∧
    (start < (s.proposals id).options.length → n ≠ 0 → UINT16 ≤ start + n →
      tallies s id start n = Except.error Err.Panic) ∧
    (start < (s.proposals id).options.length → n = 0 →
      tallies s id start n = Except.ok
        ((List.range ((s.proposals id).options.length - start)).map
          fun i => (s.proposals id).tally (start + i))) ∧
    (start < (s.proposals id).options.length → n ≠ 0 → start + n < UINT16 →
      (s.proposals id).options.length < start + n →
      tallies s id start n = Except.ok
        ((List.range ((s.proposals id).options.length - start)).map
          fun i => (s.proposals id).tally (start + i))) ∧
    (start < (s.proposals id).options.length → n ≠ 0 → start + n < UINT16 →
      start + n ≤ (s.proposals id).options.length →
      tallies s id start n = Except.ok
        ((List.range n).map fun i => (s.proposals id).tally (start + i))) := by
  have hmod : (s.proposals id).options.length % UINT16 = (s.proposals id).options.length :=
    Nat.mod_eq_of_lt hlen
  refine ⟨⟨?_, ?_⟩, ?_, ?_, ?_, ?_⟩
  · intro h
    by_contra hlt
    unfold tallies at h
    rw [hmod, if_pos (by omega)] at h
    by_cases hp : n ≠ 0 ∧ UINT16 ≤ start + n
    · rw [if_pos hp] at h
      simp at h
    · rw [if_neg hp] at h
      by_cases he : talliesEnd s id start n ≤ start ∧
          0 < (s.proposals id).options.length
      · rw [if_pos he] at h
        simp at h
      · rw [if_neg he] at h
        simp at h
  · intro h
    unfold tallies
    rw [hmod, if_neg (by omega)]
  · intro hs hn hov
    unfold tallies
    rw [hmod, if_pos hs, if_pos ⟨hn, hov⟩]
  · intro hs h0
    unfold tallies
    have hend : talliesEnd s id start n = (s.proposals id).options.length := by
      unfold talliesEnd
      rw [hmod, if_pos (Or.inl h0)]
    rw [hmod, if_pos hs, if_neg (by simp [h0]), hend, if_neg (by omega)]
  · intro hs hn hfit hover
    unfold tallies
    have hend : talliesEnd s id start n = (s.proposals id).options.length := by
      unfold talliesEnd
      rw [hmod, if_pos (Or.inr (Or.inl hover))]
    rw [hmod, if_pos hs, if_neg (by omega), hend, if_neg (by omega)]
  · intro hs hn hfit hle
    unfold tallies
    have hend : talliesEnd s id start n = start + n := by
      unfold talliesEnd
      rw [hmod, if_neg (by omega)]
    rw [hmod, if_pos hs, if_neg (by omega), hend, if_neg (by omega),
      Nat.add_sub_cancel_left]

/-- C8 counterexample: on the two-option proposal of s3, the call
    tallies(1, start 1, count 65535) makes start+count wrap the 16-bit
    range; the claim says the end is clamped to options.length (returning
    [5], the tally slice from 1), but the code reverts with an arithmetic
    panic. -/
theorem C8_counterexample :
    tallies s3 1 1 65535 = Except.error Err.Panic ∧
    Except.error Err.Panic ≠ (Except.ok [5] : Except Err (List Nat)) := by
  refine ⟨by decide, by decide⟩

/-- C8 witness: instantiating C8_tallies_bounds on s3 (options.length 2,
    tallies [0, 5]): start 2 is OutOfBounds, tallies(1, 1, 0) returns [5]
    (all options from 1 to the end), tallies(1, 0, 5) clamps to [0, 5],
    tallies(1, 0, 2) returns [0, 5] exactly, and tallies(1, 1, 65535)
    panics. -/
theorem C8_witness :
    tallies s3 1 2 0 = Except.error Err.OutOfBounds ∧
    tallies s3 1 1 0 = Except.ok [(s3.proposals 1).tally (1 + 0)] ∧
    tallies s3 1 0 5 = Except.ok
      ((List.range 2).map fun i => (s3.proposals 1).tally (0 + i)) ∧
    tallies s3 1 0 2 = Except.ok
      ((List.range 2).map fun i => (s3.proposals 1).tally (0 + i)) ∧
    tallies s3 1 1 65535 = Except.error Err.Panic := by
  refine ⟨(C8_tallies_bounds s3 1 2 0 (by decide)).1.mpr (by decide),
    ?_, ?_, ?_,
    (C8_tallies_bounds s3 1 1 65535 (by decide)).2.1 (by decide) (by decide) (by decide)⟩
  · have h := (C8_tallies_bounds s3 1 1 0 (by decide)).2.2.1 (by decide) rfl
    simpa using h
  · have h := (C8_tallies_bounds s3 1 0 5 (by decide)).2.2.2.1 (by decide) (by decide)
      (by decide) (by decide)
    simpa using h
  · exact (C8_tallies_bounds s3 1 0 2 (by decide)).2.2.2.2 (by decide) (by decide)
      (by decide) (by decide)

/-- C9 (amended): getProposal cannot fail - it performs no existence check,
    so for an id for which no proposal has been created it returns the
    mapping's default record (empty title, Simple mode, closesAt 0, no
    options, isOpen false); for every created proposal it returns its
    title, mode, closesAt, options and isOpen computed as
    (not closed) and (now < closesAt). -/
theorem C9_getProposal_total (now now2 sender owner root : Nat) (s : DAOState)
    (title description : String) (mode : CountingMode) (options : List String)
    (duration pid iid : Nat) :
    ((createProposal now sender s title description mode options duration).2 = Except.ok pid →
      getProposal now2 (createProposal now sender s title description mode options duration).1 pid =
        { title := title, mode := mode,
          isOpen := decide (now2 < now % UINT64 + duration),
          closes := now % UINT64 + duration, options := options }) ∧
    getProposal now2 (initState owner root) iid =
      { title := "", mode := CountingMode.Simple, isOpen := false, closes := 0, options := [] } ∧
    (∀ st : DAOState, getProposal now2 st iid =
      { title := (st.proposals iid).title, mode := (st.proposals iid).mode,
        isOpen := !(st.proposals iid).closed && decide (now2 < (st.proposals iid).closes),
        closes := (st.proposals iid).closes, options := (st.proposals iid).options }) := by
  refine ⟨?_, ?_, fun st => rfl⟩
  · intro h
    by_cases c1 : sender = s.owner
    · by_cases c2 : 2 ≤ options.length
      · by_cases c3 : now % UINT64 + duration < UINT64
        · unfold createProposal at h ⊢
          rw [if_pos c1, if_pos c2, if_pos c3] at h ⊢
          have hpid : s.proposalCount + 1 = pid := Except.ok.inj h
          subst hpid
          simp [getProposal, mapWrite]
        · unfold createProposal at h
          rw [if_pos c1, if_pos c2, if_neg c3] at h
          exact Except.noConfusion h
      · unfold createProposal at h
        rw [if_pos c1, if_neg c2] at h
        exact Except.noConfusion h
    · unfold createProposal at h
      rw [if_neg c1] at h
      exact Except.noConfusion h
  · simp [getProposal, initState, defaultProposal]

/-- C9 counterexample: on a freshly constructed DAO (owner 0, root 7) with
    no proposal created, getProposal(1) does not fail with NotFound - the
    contract has no such check and the function cannot fail - it returns
    the default record instead. -/
theorem C9_counterexample :
    getProposal 5 (initState 0 7) 1 =
      { title := "", mode := CountingMode.Simple, isOpen := false,
        closes := 0, options := [] } := by
  decide

/-- C9 witness: instantiating C9_getProposal_total: creating a proposal
    titled "T2" with options ["A","B"] and duration 30 at time 10 yields id
    2 on s0, and getProposal at times 35 and 45 returns the stored fields
    with isOpen true before 40 = closesAt and false after. -/
theorem C9_witness :
    getProposal 35 (createProposal 10 0 s0 "T2" "D2" CountingMode.Simple ["A", "B"] 30).1 2 =
      { title := "T2", mode := CountingMode.Simple,
        isOpen := decide (35 < 10 % UINT64 + 30),
        closes := 10 % UINT64 + 30, options := ["A", "B"] } ∧
    getProposal 45 (createProposal 10 0 s0 "T2" "D2" CountingMode.Simple ["A", "B"] 30).1 2 =
      { title := "T2", mode := CountingMode.Simple,
        isOpen := decide (45 < 10 % UINT64 + 30),
        closes := 10 % UINT64 + 30, options := ["A", "B"] } := by
  refine ⟨(C9_getProposal_total 10 35 0 0 7 s0 "T2" "D2" CountingMode.Simple ["A", "B"] 30 2 1).1
      (by decide),
    (C9_getProposal_total 10 45 0 0 7 s0 "T2" "D2" CountingMode.Simple ["A", "B"] 30 2 1).1
      (by decide)⟩
